import Mathlib

/-
Verification of the CIFTI composite-index assembly core
(`fmriprep/interfaces/cifti.py`, function `create_cifti_image` and the
`GenerateCifti._fetch_data` space check).

The Python source is shallowly embedded: numpy arrays become nested lists,
Python runtime failures (ValueError from `list.index`, IndexError from
out-of-range indexing, AttributeError from `ts.T` on a plain list,
NotImplementedError from the space check) become an explicit error type
threaded through `Except`.  File contents (annotations, GIFTI time series,
label volume, BOLD volume) are passed as already-loaded pure values, since
reading them is delegated to external collaborators.
-/

namespace Cifti

/-- Runtime failures of the embedded code.  `valueError` models the Python
ValueError (raised by `list.index` on a missing element), `indexError`
models out-of-range indexing, `attributeError` models attribute lookup
failure (`ts.T` where `ts` is a plain list), `notImplementedError` models
the space check in `GenerateCifti._fetch_data`, and `shapeMismatch` is the
shape-mismatch failure named by the specification (the code never raises
it; the constructor exists so that this can be stated). -/
inductive PyErr
  | valueError
  | indexError
  | attributeError
  | notImplementedError
  | shapeMismatch
  deriving DecidableEq

/-- Whether an `Except` computation succeeded. -/
def exOk {e g : Type} : Except e g → Bool
  | .ok _ => true
  | .error _ => false

/-- Whether an `Except` computation failed precisely with `shapeMismatch`. -/
def isShapeErr {g : Type} : Except PyErr g → Bool
  | .error .shapeMismatch => true
  | _ => false

/-- Python sequence indexing `l[i]` for a non-negative index: out of range
raises IndexError. -/
def pyGet? {g : Type} (l : List g) (i : Nat) : Except PyErr g :=
  match l.get? i with
  | some x => .ok x
  | none => .error .indexError

/-- Effectful map over a list, stopping at the first failure; models a
Python loop or comprehension whose body may raise. -/
def mapE {b g : Type} (f : b → Except PyErr g) : List b → Except PyErr (List g)
  | [] => .ok []
  | x :: xs => do
    let y ← f x
    let ys ← mapE f xs
    return y :: ys

/-- Models `np.column_stack((m, b))` for two 2-D blocks: requires equal row
counts (numpy raises ValueError otherwise) and appends the columns of `b`
to each row of `m`. -/
def columnStack (m : List (List Int)) (b : List (List Int)) :
    Except PyErr (List (List Int)) :=
  if m.length = b.length then .ok (List.zipWith (fun r s => r ++ s) m b)
  else .error .valueError

/-- A loaded FreeSurfer annotation, the parts the code uses:
`labels` is `annot[0]` (per-vertex classification codes) and `names` is
`annot[2]` (the label-name table). -/
structure Annot where
  labels : List Int
  names : List String
  deriving DecidableEq

/-- A loaded GIFTI surface time series: one data array per frame, each
holding one value per vertex (`gii.darrays`, each `tsarr.data`). -/
structure Gifti where
  darrays : List (List Int)
  deriving DecidableEq

/-- One CIFTI brain model as constructed by the code
(`ci.Cifti2BrainModel(...)` plus `surface_number_of_vertices`). -/
structure BrainModel where
  index_offset : Nat
  index_count : Nat
  model_type : String
  brain_structure : String
  vertex_indices : Option (List Nat)
  voxel_indices_ijk : Option (List (List Nat))
  surface_number_of_vertices : Option Nat
  deriving DecidableEq

/-- The structure registry `CIFTI_STRUCT_WITH_LABELS`: ordered catalogue of
structure names with their FreeSurfer label codes; an empty code list marks
a surface structure. -/
def CIFTI_STRUCT_WITH_LABELS : List (String × List Int) :=
  [("CIFTI_STRUCTURE_CORTEX_LEFT", []),
   ("CIFTI_STRUCTURE_CORTEX_RIGHT", []),
   ("CIFTI_STRUCTURE_ACCUMBENS_LEFT", [26]),
   ("CIFTI_STRUCTURE_ACCUMBENS_RIGHT", [58]),
   ("CIFTI_STRUCTURE_AMYGDALA_LEFT", [18]),
   ("CIFTI_STRUCTURE_AMYGDALA_RIGHT", [54]),
   ("CIFTI_STRUCTURE_BRAIN_STEM", [16]),
   ("CIFTI_STRUCTURE_CAUDATE_LEFT", [11]),
   ("CIFTI_STRUCTURE_CAUDATE_RIGHT", [50]),
   ("CIFTI_STRUCTURE_CEREBELLUM_LEFT", [6]),
   ("CIFTI_STRUCTURE_CEREBELLUM_RIGHT", [45]),
   ("CIFTI_STRUCTURE_DIENCEPHALON_VENTRAL_LEFT", [28]),
   ("CIFTI_STRUCTURE_DIENCEPHALON_VENTRAL_RIGHT", [60]),
   ("CIFTI_STRUCTURE_HIPPOCAMPUS_LEFT", [17]),
   ("CIFTI_STRUCTURE_HIPPOCAMPUS_RIGHT", [53]),
   ("CIFTI_STRUCTURE_PALLIDUM_LEFT", [13]),
   ("CIFTI_STRUCTURE_PALLIDUM_RIGHT", [52]),
   ("CIFTI_STRUCTURE_PUTAMEN_LEFT", [12]),
   ("CIFTI_STRUCTURE_PUTAMEN_RIGHT", [51]),
   ("CIFTI_STRUCTURE_THALAMUS_LEFT", [10]),
   ("CIFTI_STRUCTURE_THALAMUS_RIGHT", [49])]

/-- Python `names.index(target)`: index of the first occurrence, ValueError
when absent (models the byte-string unknown lookup at line 170). -/
def pyListIndex (names : List String) (target : String) : Except PyErr Nat :=
  match names.findIdx? (fun n => n == target) with
  | some i => .ok i
  | none => .error .valueError

/-- Models `np.nonzero(annot[0] != code)[0]`: the ascending list of vertex
positions whose classification code differs from `code`. -/
def vertIdxOf (labels : List Int) (code : Nat) : List Nat :=
  (List.range labels.length).filter
    (fun i => !(labels.get? i == some (Int.ofNat code)))

/-- The surface extractor, lines 168-172 of the source: total vertex count,
medial-wall exclusion via the index of the name `unknown`, and per-frame
gathering of the values at the retained vertices.  Returns
(surf_verts, vert_idx, ts). -/
def surfaceExtract (annot : Annot) (gii : Gifti) :
    Except PyErr (Nat × List Nat × List (List Int)) := do
  let surf_verts := annot.labels.length
  let code ← pyListIndex annot.names ("unknown")
  let vert_idx := vertIdxOf annot.labels code
  let ts ← mapE (fun d => mapE (pyGet? d) vert_idx) gii.darrays
  return (surf_verts, vert_idx, ts)

/-- Python `s.split(sep)` for a single separator character. -/
def splitOnChar (sep : Char) : List Char → List (List Char)
  | [] => [[]]
  | c :: cs =>
    let r := splitOnChar sep cs
    if c = sep then [] :: r
    else
      match r with
      | [] => [[c]]
      | t :: ts => (c :: t) :: ts

/-- The file-selection index for a surface structure, lines 163-166:
`hemi = structure.split('_')[-1][0]` followed by indexing the file lists
with the boolean `hemi == "RIGHT"` (False selects 0, True selects 1).
`hemi` is a single-character string, so the comparison with the
five-character string `RIGHT` decides the index. -/
def fileIdx (sname : String) : Nat :=
  let hemi := ((splitOnChar '_' sname.data).getLast!).take 1
  if hemi = "RIGHT".data then 1 else 0

/-- The surface branch of the assembly loop (lines 160-184): select the
annotation and GIFTI files, extract, build the brain model, and stack the
new columns.  Returns the entry, the widened matrix and the new offset. -/
def surfaceStep (A : List Annot) (G : List Gifti) (sname : String)
    (off : Nat) (bm_ts : List (List Int)) :
    Except PyErr (BrainModel × List (List Int) × Nat) := do
  let annot ← pyGet? A (fileIdx sname)
  let gii ← pyGet? G (fileIdx sname)
  let r ← surfaceExtract annot gii
  let bm : BrainModel :=
    { index_offset := off
      index_count := r.2.1.length
      model_type := "CIFTI_MODEL_TYPE_SURFACE"
      brain_structure := sname
      vertex_indices := some r.2.1
      voxel_indices_ijk := none
      surface_number_of_vertices := some r.1 }
  let bm_ts2 ← columnStack bm_ts r.2.2
  return (bm, bm_ts2, off + r.2.1.length)

/-- Pair every list element with its position, used to model the numpy
row-major traversal. -/
def enumList {g : Type} (l : List g) : List (Nat × g) :=
  (List.range l.length).zip l

/-- Models `np.nonzero(label_data == label)` on a 3-D volume: the row-major
list of (i, j, k) coordinates whose value equals `label`. -/
def nonzero3 (ld : List (List (List Int))) (label : Int) :
    List (Nat × Nat × Nat) :=
  (enumList ld).flatMap fun p =>
    (enumList p.2).flatMap fun q =>
      (enumList q.2).filterMap fun r =>
        if r.2 = label then some (p.1, q.1, r.1) else none

/-- Models the fancy indexing `bold_data[ijk]`: one row per matched voxel
holding the full time vector of that voxel; any out-of-range coordinate raises
IndexError. -/
def boldGather (bd : List (List (List (List Int))))
    (coords : List (Nat × Nat × Nat)) : Except PyErr (List (List Int)) :=
  mapE (fun c => do
    let pl ← pyGet? bd c.1
    let ro ← pyGet? pl c.2.1
    pyGet? ro c.2.2) coords

/-- The per-label loop of the volume branch, lines 186-192, bugs included:
`ts.append(bold_data[ijk])` appends one block per label, and the
comprehension `[[ijk[0][ix], ijk[1][ix], ijk[2][ix]] for ix, row in
enumerate(ts)]` enumerates the list `ts` (one element per label processed
so far), not the matched voxels, indexing the coordinate arrays at those
positions.  Accumulates (vox, ts). -/
def volumeLoop (ld : List (List (List Int)))
    (bd : List (List (List (List Int)))) :
    List Int → List (List Nat) → List (List (List Int)) →
    Except PyErr (List (List Nat) × List (List (List Int)))
  | [], vox, ts => .ok (vox, ts)
  | label :: rest, vox, ts => do
    let ijk := nonzero3 ld label
    let tsElem ← boldGather bd ijk
    let ts2 := ts ++ [tsElem]
    let newVox ← mapE (fun ix => do
      let c ← pyGet? ijk ix
      return [c.1, c.2.1, c.2.2]) (List.range ts2.length)
    volumeLoop ld bd rest (vox ++ newVox) ts2

/-- Models `ts.T` at line 195: `ts` is a plain Python list, which has no
attribute `T`, so this unconditionally raises AttributeError. -/
def listT (_ts : List (List (List Int))) : Except PyErr (List (List Int)) :=
  .error .attributeError

/-- The volume branch of the assembly loop (lines 185-204): run the
per-label loop, transpose `ts` (which raises, see `listT`), stack the
columns, and build the brain model with the current `model_type` value
(the code never reassigns `model_type` in this branch). -/
def volumeStep (ld : List (List (List Int)))
    (bd : List (List (List (List Int)))) (sname : String)
    (labels : List Int) (off : Nat) (mt : String)
    (bm_ts : List (List Int)) :
    Except PyErr (BrainModel × List (List Int) × Nat) := do
  let r ← volumeLoop ld bd labels [] []
  let tsT ← listT r.2
  let bm_ts2 ← columnStack bm_ts tsT
  let bm : BrainModel :=
    { index_offset := off
      index_count := r.1.length
      model_type := mt
      brain_structure := sname
      vertex_indices := none
      voxel_indices_ijk := some r.1
      surface_number_of_vertices := none }
  return (bm, bm_ts2, off + r.1.length)

/-- The mutable state of the assembly loop: `idx_offset`, the accumulated
`brainmodels`, the growing matrix `bm_ts`, and the `model_type` variable
(initialised to the voxel model type at line 146 and reassigned only in
the surface branch). -/
structure AsmState where
  idx_offset : Nat
  brainmodels : List BrainModel
  bm_ts : List (List Int)
  model_type : String
  deriving DecidableEq

/-- One iteration of `for structure, labels in CIFTI_STRUCT_WITH_LABELS`:
dispatch on `if not labels` to the surface or volume branch and update the
loop state. -/
def assembleStep (A : List Annot) (G : List Gifti)
    (ld : List (List (List Int))) (bd : List (List (List (List Int))))
    (st : AsmState) (entry : String × List Int) : Except PyErr AsmState :=
  if entry.2.isEmpty then do
    let r ← surfaceStep A G entry.1 st.idx_offset st.bm_ts
    return ⟨r.2.2, st.brainmodels ++ [r.1], r.2.1, "CIFTI_MODEL_TYPE_SURFACE"⟩
  else do
    let r ← volumeStep ld bd entry.1 entry.2 st.idx_offset st.model_type st.bm_ts
    return ⟨r.2.2, st.brainmodels ++ [r.1], r.2.1, st.model_type⟩

/-- The assembly loop over a list of registry entries. -/
def assemble (A : List Annot) (G : List Gifti)
    (ld : List (List (List Int))) (bd : List (List (List (List Int)))) :
    List (String × List Int) → AsmState → Except PyErr AsmState
  | [], st => .ok st
  | e :: rest, st => do
    let st2 ← assembleStep A G ld bd st e
    assemble A G ld bd rest st2

/-- The loop state before the first iteration: offset 0, no entries, an
empty matrix with one row per timepoint (`np.empty((timepoints, 0))`), and
`model_type = "CIFTI_MODEL_TYPE_VOXELS"`. -/
def initState (timepoints : Nat) : AsmState :=
  ⟨0, [], List.replicate timepoints [], "CIFTI_MODEL_TYPE_VOXELS"⟩

/-- The brain-model assembly of `create_cifti_image`: the loop over the
full registry starting from the initial state. -/
def createCiftiCore (A : List Annot) (G : List Gifti)
    (ld : List (List (List Int))) (bd : List (List (List (List Int))))
    (timepoints : Nat) : Except PyErr AsmState :=
  assemble A G ld bd CIFTI_STRUCT_WITH_LABELS (initState timepoints)

/-- Python `os.path.basename`: the characters after the last slash. -/
def pyBasename (l : List Char) : List Char :=
  (l.reverse.takeWhile (fun c => !(c == '/'))).reverse

/-- One attempt of the special-extension loop in nipype `split_filename`: if
`fname` is longer than `ext` and its last characters, lowercased, equal
`ext`, strip them. -/
def tryExt (fname ext : List Char) : Option (List Char) :=
  if fname.length > ext.length ∧
      (fname.drop (fname.length - ext.length)).map Char.toLower = ext then
    some (fname.take (fname.length - ext.length))
  else none

/-- The special multi-part extensions known to nipype `split_filename`,
tried in order with a break at the first match. -/
def stripSpecial (fname : List Char) : Option (List Char) :=
  match tryExt fname (".nii.gz").data with
  | some s => some s
  | none =>
    match tryExt fname (".tar.gz").data with
    | some s => some s
    | none => tryExt fname (".niml.dset").data

/-- Position of the last dot in a file name, if any. -/
def lastDotIdx (l : List Char) : Option Nat :=
  ((List.range l.length).filter (fun i => l.get? i == some '.')).getLast?

/-- Python `os.path.splitext` restricted to a basename: split at the last
dot unless every character before it is itself a dot (leading-dot files
keep their name whole).  Returns the stem. -/
def splitextStem (fname : List Char) : List Char :=
  match lastDotIdx fname with
  | none => fname
  | some i => if (fname.take i).all (fun c => c == '.') then fname else fname.take i

/-- The `fname` component of nipype `split_filename(bold_file)` used at
line 230: basename, then special-extension stripping, else `splitext`. -/
def splitFilenameName (path : List Char) : List Char :=
  match stripSpecial (pyBasename path) with
  | some stem => stem
  | none => splitextStem (pyBasename path)

/-- The serializer step, lines 230-232: the single file name passed to
`ci.save` (`"{}.dtseries.nii".format(out_file)`) and the returned value
(`out_file`). -/
def serializeOut (bold_file : List Char) : List (List Char) × List Char :=
  let out := splitFilenameName bold_file
  ([out ++ (".dtseries.nii").data], out)

/-- The space check opening `GenerateCifti._fetch_data` (lines 96-99):
raises NotImplementedError when the surface target is `fsnative` or the
volume target is not `MNI152NLin2009cAsym`. -/
def fetchDataCheck (surface_target volume_target : String) :
    Except PyErr Unit :=
  if surface_target == "fsnative" || volume_target != "MNI152NLin2009cAsym" then
    .error .notImplementedError
  else .ok ()

/-- `GenerateCifti._run_interface`: `_fetch_data` (whose space check runs
before anything else) followed by `create_cifti_image`. -/
def runInterface (surface_target volume_target : String) (A : List Annot)
    (G : List Gifti) (ld : List (List (List Int)))
    (bd : List (List (List (List Int)))) (timepoints : Nat) :
    Except PyErr AsmState := do
  let _ ← fetchDataCheck surface_target volume_target
  createCiftiCore A G ld bd timepoints

/-- The full `create_cifti_image` model: assemble the brain models over
the registry, then serialize; returns the final loop state, the list of
file names written and the returned base name. -/
def create_cifti_image (bold_file : List Char) (A : List Annot)
    (G : List Gifti) (ld : List (List (List Int)))
    (bd : List (List (List (List Int)))) (timepoints : Nat) :
    Except PyErr (AsmState × List (List Char) × List Char) := do
  let st ← createCiftiCore A G ld bd timepoints
  let w := serializeOut bold_file
  return (st, w.1, w.2)

/-- A well-formed two-vertex annotation: vertex 0 is the medial wall
(code 0, named `unknown`), vertex 1 is cortex. -/
def demoAnnot : Annot := ⟨[0, 1], ["unknown", "ctx"]⟩

/-- A one-frame GIFTI time series over the two vertices of `demoAnnot`. -/
def demoGii : Gifti := ⟨[[3, 4]]⟩

/-- A 1 x 1 x 1 label volume whose single voxel carries label 26, the code
of `CIFTI_STRUCTURE_ACCUMBENS_LEFT`. -/
def demoLabel : List (List (List Int)) := [[[26]]]

/-- A matching 1 x 1 x 1 x 1 BOLD volume. -/
def demoBold : List (List (List (List Int))):= [[[[7]]]]

/-- C1: the assembly never produces the full offset sequence over the
registry: on well-formed inputs the run raises AttributeError at the first
volume structure (`ts.T` on a plain list, line 195), so no ordered
BrainModelEntry list tiling [0, total) over all registry structures
exists. -/
theorem cifti_C1 :
    create_cifti_image ("bold.nii.gz").data [demoAnnot, demoAnnot]
      [demoGii, demoGii] demoLabel demoBold 1 = .error .attributeError :=
  rfl

/-- A 1 x 1 x 12 label volume with exactly 12 voxels carrying label 17. -/
def c2Label : List (List (List Int)) := [[List.replicate 12 17]]

/-- The matching 1 x 1 x 12 x 1 BOLD volume. -/
def c2Bold : List (List (List (List Int))) := [[List.replicate 12 [5]]]

/-- C2: 12 voxels match label 17 but the volume loop records exactly one
coordinate triple (the comprehension at lines 191-192 enumerates the
per-label list `ts`, not the voxels), and a label with 0 matching voxels
raises IndexError instead of contributing a 0-count block. -/
theorem cifti_C2 :
    volumeLoop c2Label c2Bold [17] [] []
        = .ok ([[0, 0, 0]], [List.replicate 12 [5]]) ∧
      (nonzero3 c2Label 17).length = 12 ∧
      volumeLoop c2Label c2Bold [99] [] [] = .error .indexError :=
  ⟨rfl, rfl, rfl⟩

/-- C3: both cortex structures read the file lists at position 0: the
extracted `hemi` is the single character `R` or `L`, and comparing it with
the five-character string `RIGHT` is always false, so the right cortex is
built from the left-hemisphere files at position 0, not position 1. -/
theorem cifti_C3 :
    fileIdx ("CIFTI_STRUCTURE_CORTEX_RIGHT") = 0 ∧
      fileIdx ("CIFTI_STRUCTURE_CORTEX_LEFT") = 0 :=
  ⟨rfl, rfl⟩

/-- C4: after the two cortex structures the loop variable `model_type`
holds the surface model type, and it is never reassigned in the volume
branch, so no entry with the voxel model type can ever be produced; the
full run instead raises AttributeError at the first volume structure. -/
theorem cifti_C4 :
    (assemble [demoAnnot, demoAnnot] [demoGii, demoGii] demoLabel demoBold
        (CIFTI_STRUCT_WITH_LABELS.take 2) (initState 1)).map
        (fun st => (st.model_type, st.brainmodels.map (fun b => b.model_type)))
        = .ok ("CIFTI_MODEL_TYPE_SURFACE",
            ["CIFTI_MODEL_TYPE_SURFACE", "CIFTI_MODEL_TYPE_SURFACE"]) ∧
      createCiftiCore [demoAnnot, demoAnnot] [demoGii, demoGii] demoLabel
        demoBold 1 = .error .attributeError :=
  ⟨rfl, rfl⟩

theorem pyGet?_ok_iff {g : Type} {l : List g} {i : Nat} {x : g} :
    pyGet? l i = .ok x ↔ l.get? i = some x := by
  unfold pyGet?
  cases h : l.get? i <;> simp [h]

theorem vertIdxOf_sublist (labels : List Int) (code : Nat) :
    (vertIdxOf labels code).Sublist (List.range labels.length) :=
  List.filter_sublist _

theorem vertIdxOf_pairwise (labels : List Int) (code : Nat) :
    List.Pairwise (fun a b => a < b) (vertIdxOf labels code) :=
  List.Pairwise.sublist (vertIdxOf_sublist labels code)
    (List.pairwise_lt_range _)

theorem vertIdxOf_nodup (labels : List Int) (code : Nat) :
    (vertIdxOf labels code).Nodup :=
  (vertIdxOf_pairwise labels code).imp (fun h => Nat.ne_of_lt h)

theorem vertIdxOf_mem (labels : List Int) (code : Nat) (i : Nat) :
    i ∈ vertIdxOf labels code ↔
      i < labels.length ∧ ¬ labels.get? i = some (Int.ofNat code) := by
  simp [vertIdxOf, List.mem_filter, List.mem_range]

/-- C5: whenever the surface branch succeeds, the retained vertex list is
exactly the ascending positions whose classification differs from the code
resolved for the name `unknown`; it is a strictly increasing, deduplicated
subsequence of [0, totalVertexCount), and the `index_count` of the
produced entry is its length. -/
theorem cifti_C5 (A : List Annot) (G : List Gifti) (sname : String)
    (off : Nat) (bm_ts : List (List Int)) (bm : BrainModel)
    (m : List (List Int)) (off2 : Nat)
    (h : surfaceStep A G sname off bm_ts = .ok (bm, m, off2)) :
    ∃ annot code,
      A.get? (fileIdx sname) = some annot ∧
      pyListIndex annot.names ("unknown") = .ok code ∧
      bm.vertex_indices = some (vertIdxOf annot.labels code) ∧
      bm.index_count = (vertIdxOf annot.labels code).length ∧
      (vertIdxOf annot.labels code).Sublist (List.range annot.labels.length) ∧
      List.Pairwise (fun a b => a < b) (vertIdxOf annot.labels code) ∧
      (vertIdxOf annot.labels code).Nodup ∧
      ∀ i, i ∈ vertIdxOf annot.labels code ↔
        (i < annot.labels.length ∧
          ¬ annot.labels.get? i = some (Int.ofNat code)) := by
  unfold surfaceStep at h
  simp only [Bind.bind] at h
  cases hA : pyGet? A (fileIdx sname) with
  | error e => rw [hA] at h; simp [Except.bind] at h
  | ok annot =>
  rw [hA] at h
  simp only [Except.bind] at h
  cases hG : pyGet? G (fileIdx sname) with
  | error e => rw [hG] at h; simp [Except.bind] at h
  | ok gii =>
  rw [hG] at h
  simp only [Except.bind] at h
  cases hE : surfaceExtract annot gii with
  | error e => rw [hE] at h; simp [Except.bind] at h
  | ok r =>
  rw [hE] at h
  simp only [Except.bind] at h
  unfold surfaceExtract at hE
  simp only [Bind.bind] at hE
  cases hU : pyListIndex annot.names ("unknown") with
  | error e => rw [hU] at hE; simp [Except.bind] at hE
  | ok code =>
  rw [hU] at hE
  simp only [Except.bind] at hE
  cases hM : mapE (fun d => mapE (pyGet? d) (vertIdxOf annot.labels code))
      gii.darrays with
  | error e => rw [hM] at hE; simp [Except.bind] at hE
  | ok ts =>
  rw [hM] at hE
  simp only [Except.bind, Pure.pure, Except.pure, Except.ok.injEq] at hE
  cases hC : columnStack bm_ts r.2.2 with
  | error e => rw [hC] at h; simp [Except.bind] at h
  | ok m2 =>
  rw [hC] at h
  simp only [Except.bind, Pure.pure, Except.pure,
    Except.ok.injEq, Prod.mk.injEq] at h
  obtain ⟨hbm, _, _⟩ := h
  refine ⟨annot, code, pyGet?_ok_iff.mp hA, hU, ?_, ?_,
    vertIdxOf_sublist _ _, vertIdxOf_pairwise _ _, vertIdxOf_nodup _ _,
    vertIdxOf_mem _ _⟩
  · rw [← hbm, ← hE]
  · rw [← hbm, ← hE]

/-- The brain model produced for the left cortex on the demo inputs. -/
def bmDemo : BrainModel :=
  ⟨0, 1, "CIFTI_MODEL_TYPE_SURFACE", "CIFTI_STRUCTURE_CORTEX_LEFT",
    some [1], none, some 2⟩

/-- Witness for C5 at a concrete successful surface extraction. -/
theorem cifti_C5_witness :
    surfaceStep [demoAnnot] [demoGii] "CIFTI_STRUCTURE_CORTEX_LEFT" 0 [[]]
        = .ok (bmDemo, [[4]], 1) ∧
      ∃ annot code,
        [demoAnnot].get? (fileIdx ("CIFTI_STRUCTURE_CORTEX_LEFT")) = some annot ∧
        pyListIndex annot.names ("unknown") = .ok code ∧
        bmDemo.vertex_indices = some (vertIdxOf annot.labels code) ∧
        bmDemo.index_count = (vertIdxOf annot.labels code).length ∧
        (vertIdxOf annot.labels code).Sublist
          (List.range annot.labels.length) ∧
        List.Pairwise (fun a b => a < b) (vertIdxOf annot.labels code) ∧
        (vertIdxOf annot.labels code).Nodup ∧
        ∀ i, i ∈ vertIdxOf annot.labels code ↔
          (i < annot.labels.length ∧
            ¬ annot.labels.get? i = some (Int.ofNat code)) :=
  ⟨rfl, cifti_C5 [demoAnnot] [demoGii] "CIFTI_STRUCTURE_CORTEX_LEFT" 0 [[]]
    bmDemo [[4]] 1 rfl⟩

theorem ebind_ok {g d : Type} (x : g) (f : g → Except PyErr d) :
    Except.bind (Except.ok x) f = f x := rfl

theorem ebind_err {g d : Type} (e : PyErr) (f : g → Except PyErr d) :
    Except.bind (Except.error e) f = Except.error e := rfl

theorem exOk_ebind_pure {g d : Type} (e : Except PyErr g)
    (f : g → Except PyErr d) (h : ∀ x, exOk (f x) = true) :
    exOk (Except.bind e f) = exOk e := by
  cases e with
  | error err => rfl
  | ok x => rw [ebind_ok, h x]; rfl

theorem exOk_mapE_cons {b g : Type} (f : b → Except PyErr g) (a : b)
    (as : List b) :
    exOk (mapE f (a :: as)) = (exOk (f a) && exOk (mapE f as)) := by
  cases hfa : f a with
  | error e => simp [mapE, hfa, exOk, Bind.bind, Except.bind]
  | ok y =>
    cases hms : mapE f as with
    | error e => simp [mapE, hfa, hms, exOk, Bind.bind, Except.bind]
    | ok ys =>
      simp [mapE, hfa, hms, exOk, Bind.bind, Except.bind, Pure.pure,
        Except.pure]

theorem exOk_mapE {b g : Type} (f : b → Except PyErr g) (l : List b) :
    exOk (mapE f l) = l.all (fun x => exOk (f x)) := by
  induction l with
  | nil => rfl
  | cons a as ih => rw [exOk_mapE_cons, ih, List.all_cons]

theorem exOk_pyGet? {g : Type} (l : List g) (i : Nat) :
    exOk (pyGet? l i) = decide (i < l.length) := by
  unfold pyGet?
  cases h : l.get? i with
  | none =>
    have hle : l.length ≤ i := List.get?_eq_none.mp h
    simp only [exOk]
    symm
    simp only [decide_eq_false_iff_not]
    omega
  | some x =>
    obtain ⟨hi, _⟩ := List.get?_eq_some.mp h
    simp [exOk, hi]

/-- C6 (amended): surface extraction fails in exactly two cases: the name
`unknown` is absent from the name table, or the time-series source has at
least one frame and some retained vertex index is out of range of the
per-vertex length (which happens only when the source is shorter than
needed; equal or longer sources succeed). -/
theorem cifti_C6 (annot : Annot) (gii : Gifti) (L : Nat)
    (hL : ∀ d ∈ gii.darrays, d.length = L) :
    exOk (surfaceExtract annot gii) = false ↔
      (pyListIndex annot.names ("unknown") = .error .valueError ∨
       ∃ code, pyListIndex annot.names ("unknown") = .ok code ∧
         gii.darrays ≠ [] ∧
         ∃ i ∈ vertIdxOf annot.labels code, L ≤ i) := by
  unfold surfaceExtract
  simp only [Bind.bind]
  cases hU : pyListIndex annot.names ("unknown") with
  | error e =>
    have he : e = PyErr.valueError := by
      unfold pyListIndex at hU
      cases hf : annot.names.findIdx? (fun n => n == "unknown") <;>
        rw [hf] at hU <;> simp at hU
      exact hU.symm
    subst he
    simp [Except.bind, exOk, hU]
  | ok code =>
    simp only [ebind_ok]
    have hstep := exOk_ebind_pure
      (mapE (fun d => mapE (pyGet? d) (vertIdxOf annot.labels code))
        gii.darrays)
      (fun ts => pure (annot.labels.length, vertIdxOf annot.labels code, ts))
      (fun x => rfl)
    rw [hstep]
    rw [exOk_mapE]
    constructor
    · intro hall
      obtain ⟨d, hd, hfail⟩ := by
        simpa using (List.all_eq_false).mp hall
      rw [exOk_mapE] at hfail
      obtain ⟨i, hi, hifail⟩ := by
        simpa using (List.all_eq_false).mp hfail
      rw [exOk_pyGet?] at hifail
      have hlen : d.length ≤ i := by
        have := of_decide_eq_false hifail
        omega
      refine Or.inr ⟨code, rfl, List.ne_nil_of_mem hd, i, hi, ?_⟩
      rw [← hL d hd]
      exact hlen
    · rintro (hcontra | ⟨code1, hc1, hne, i, hi, hLi⟩)
      · simp at hcontra
      · injection hc1 with hc1
        subst hc1
        obtain ⟨d, hd⟩ := List.exists_mem_of_ne_nil _ hne
        apply List.all_eq_false.mpr
        refine ⟨d, hd, ?_⟩
        rw [exOk_mapE]
        simp only [Bool.not_eq_true]
        apply List.all_eq_false.mpr
        refine ⟨i, hi, ?_⟩
        rw [exOk_pyGet?]
        simp only [Bool.not_eq_true, decide_eq_false_iff_not]
        rw [hL d hd]
        omega

/-- A GIFTI source with one frame of per-vertex length 1, shorter than the
two vertices of `demoAnnot`. -/
def shortGii : Gifti := ⟨[[9]]⟩

/-- Witness for C6 at a concrete failing input: the retained vertex 1 is
out of range of the length-1 frame. -/
theorem cifti_C6_witness :
    (∀ d ∈ shortGii.darrays, d.length = 1) ∧
      (exOk (surfaceExtract demoAnnot shortGii) = false ↔
        (pyListIndex demoAnnot.names ("unknown") = .error .valueError ∨
         ∃ code, pyListIndex demoAnnot.names ("unknown") = .ok code ∧
           shortGii.darrays ≠ [] ∧
           ∃ i ∈ vertIdxOf demoAnnot.labels code, 1 ≤ i)) :=
  ⟨by decide, cifti_C6 demoAnnot shortGii 1 (by decide)⟩

/-- A GIFTI source with one frame of per-vertex length 3, longer than the
two vertices of `demoAnnot`. -/
def longGii : Gifti := ⟨[[5, 6, 7]]⟩

/-- Counterexample to C6 as stated: the per-vertex length (3) differs from
the total vertex count of the annotation (2), yet surface extraction succeeds
because every retained index is still in range. -/
theorem cifti_C6_counterexample :
    surfaceExtract demoAnnot longGii = .ok (2, [1], [[6]]) ∧
      longGii.darrays.all (fun d => d.length == 3) = true ∧
      demoAnnot.labels.length = 2 :=
  ⟨rfl, rfl, rfl⟩

theorem isShapeErr_pyGet? {g : Type} (l : List g) (i : Nat) :
    isShapeErr (pyGet? l i) = false := by
  unfold pyGet?
  cases h : l.get? i <;> rfl

theorem isShapeErr_ebind {g d : Type} (e : Except PyErr g)
    (f : g → Except PyErr d) (he : isShapeErr e = false)
    (hf : ∀ x, isShapeErr (f x) = false) :
    isShapeErr (Except.bind e f) = false := by
  cases e with
  | error err =>
    rw [ebind_err]
    cases err <;> first
      | rfl
      | simp [isShapeErr] at he
  | ok x => rw [ebind_ok]; exact hf x

theorem isShapeErr_mapE {b g : Type} (f : b → Except PyErr g) (l : List b)
    (hf : ∀ x, isShapeErr (f x) = false) :
    isShapeErr (mapE f l) = false := by
  induction l with
  | nil => rfl
  | cons a as ih =>
    unfold mapE
    simp only [Bind.bind]
    exact isShapeErr_ebind _ _ (hf a)
      (fun y => isShapeErr_ebind _ _ ih (fun ys => rfl))

theorem isShapeErr_boldGather (bd : List (List (List (List Int))))
    (coords : List (Nat × Nat × Nat)) :
    isShapeErr (boldGather bd coords) = false := by
  apply isShapeErr_mapE
  intro c
  simp only [Bind.bind]
  exact isShapeErr_ebind _ _ (isShapeErr_pyGet? _ _)
    (fun pl => isShapeErr_ebind _ _ (isShapeErr_pyGet? _ _)
      (fun ro => isShapeErr_pyGet? _ _))

theorem isShapeErr_volumeLoop (ld : List (List (List Int)))
    (bd : List (List (List (List Int)))) (labels : List Int) :
    ∀ (vox : List (List Nat)) (ts : List (List (List Int))),
      isShapeErr (volumeLoop ld bd labels vox ts) = false := by
  induction labels with
  | nil => intro vox ts; rfl
  | cons a rest ih =>
    intro vox ts
    show isShapeErr
        (Except.bind (boldGather bd (nonzero3 ld a)) fun tsElem =>
          Except.bind
            (mapE (fun ix =>
                Except.bind (pyGet? (nonzero3 ld a) ix) fun c =>
                  pure [c.1, c.2.1, c.2.2])
              (List.range (ts ++ [tsElem]).length))
            fun newVox => volumeLoop ld bd rest (vox ++ newVox)
              (ts ++ [tsElem])) = false
    apply isShapeErr_ebind _ _ (isShapeErr_boldGather _ _)
    intro tsElem
    apply isShapeErr_ebind
    · apply isShapeErr_mapE
      intro ix
      exact isShapeErr_ebind _ _ (isShapeErr_pyGet? _ _) (fun c => rfl)
    · intro newVox
      exact ih _ _

theorem isShapeErr_columnStack (m b : List (List Int)) :
    isShapeErr (columnStack m b) = false := by
  unfold columnStack
  split <;> rfl

/-- C7 (amended): volume extraction contains no dimension check and can
never fail with a shape-mismatch error, whatever the label volume and the
time-series volume are: its only failures are the out-of-range IndexError
and the unconditional AttributeError from `ts.T`. -/
theorem cifti_C7 (ld : List (List (List Int)))
    (bd : List (List (List (List Int)))) (sname : String)
    (labels : List Int) (off : Nat) (mt : String)
    (bm_ts : List (List Int)) :
    isShapeErr (volumeStep ld bd sname labels off mt bm_ts) = false := by
  unfold volumeStep
  simp only [Bind.bind]
  apply isShapeErr_ebind _ _ (isShapeErr_volumeLoop ld bd labels [] [])
  intro r
  apply isShapeErr_ebind
  · rfl
  · intro tsT
    apply isShapeErr_ebind _ _ (isShapeErr_columnStack _ _)
    intro bm2
    rfl

/-- A 1 x 1 x 2 label volume with one voxel of label 17. -/
def ld7 : List (List (List Int)) := [[[17, 0]]]

/-- A 1 x 1 x 3 x 1 BOLD volume: its spatial dimensions differ from those
of `ld7`. -/
def bd7 : List (List (List (List Int))) := [[[[1], [2], [3]]]]

/-- Counterexample to C7 as stated: the spatial dimensions differ
(1 x 1 x 2 versus 1 x 1 x 3) yet the volume branch does not fail with a
shape-mismatch error; it fails with the unrelated AttributeError from
`ts.T`. -/
theorem cifti_C7_counterexample :
    ((ld7.getD 0 []).getD 0 []).length = 2 ∧
      ((bd7.getD 0 []).getD 0 []).length = 3 ∧
      volumeStep ld7 bd7 ("CIFTI_STRUCTURE_HIPPOCAMPUS_LEFT") [17] 0
        ("CIFTI_MODEL_TYPE_SURFACE") [[]] = .error .attributeError ∧
      isShapeErr (volumeStep ld7 bd7 ("CIFTI_STRUCTURE_HIPPOCAMPUS_LEFT") [17]
        0 ("CIFTI_MODEL_TYPE_SURFACE") [[]]) = false :=
  ⟨rfl, rfl, rfl, rfl⟩

/-- C8 (amended): the space check passes exactly when the surface target
is not `fsnative` and the volume target is `MNI152NLin2009cAsym` — a whole
family of pairs, not a single fixed combination — and whenever it fails
the interface run stops with NotImplementedError before any extraction,
whatever the data inputs are. -/
theorem cifti_C8 (s v : String) (A : List Annot) (G : List Gifti)
    (ld : List (List (List Int))) (bd : List (List (List (List Int))))
    (tp : Nat) :
    exOk (fetchDataCheck s v) =
        (!(s == "fsnative") && (v == "MNI152NLin2009cAsym")) ∧
      (exOk (fetchDataCheck s v) = true ∨
        runInterface s v A G ld bd tp = .error .notImplementedError) := by
  constructor
  · unfold fetchDataCheck
    by_cases hseq : s = "fsnative" <;>
      by_cases hveq : v = "MNI152NLin2009cAsym" <;>
        simp [hseq, hveq, exOk]
  · cases hc : (s == "fsnative" || v != "MNI152NLin2009cAsym") with
    | false =>
      left
      simp [fetchDataCheck, hc, exOk]
    | true =>
      right
      unfold runInterface fetchDataCheck
      simp [hc, Bind.bind, Except.bind]

/-- Counterexample to C8 as stated: two distinct requested pairs both pass
the space check, so there is no single supported combination outside of
which every request fails. -/
theorem cifti_C8_counterexample :
    fetchDataCheck ("fsaverage5") ("MNI152NLin2009cAsym") = .ok () ∧
      fetchDataCheck ("fsaverage6") ("MNI152NLin2009cAsym") = .ok () ∧
      ("fsaverage5" == "fsaverage6") = false :=
  ⟨rfl, rfl, by decide⟩

/-- C9: the serializer writes exactly one file, named by appending the
conventional format suffix `.dtseries.nii` to the base name of the input
time-series file (directory and extension stripped by `split_filename`),
and returns that base name without the suffix; checked in general and at
a concrete path with a directory and a double extension. -/
theorem cifti_C9 :
    (∀ p : List Char,
        (serializeOut p).1 =
            [(serializeOut p).2 ++ (".dtseries.nii").data] ∧
          (serializeOut p).2 = splitFilenameName p) ∧
      serializeOut ("/data/sub-01_task_bold.nii.gz").data =
        ([("sub-01_task_bold.dtseries.nii").data],
          ("sub-01_task_bold").data) := by
  refine ⟨fun p => ⟨rfl, rfl⟩, ?_⟩
  rfl

/-- A character list free of path separators. -/
def noSlash (l : List Char) : Bool := l.all (fun c => !(c == '/'))

theorem noSlash_iff (l : List Char) :
    noSlash l = true ↔ ∀ c ∈ l, c ≠ '/' := by
  simp [noSlash, List.all_eq_true]

theorem noSlash_take (l : List Char) (k : Nat) (h : noSlash l = true) :
    noSlash (l.take k) = true := by
  rw [noSlash_iff] at h ⊢
  intro c hc
  exact h c (List.take_subset k l hc)

theorem noSlash_pyBasename (p : List Char) :
    noSlash (pyBasename p) = true := by
  rw [noSlash_iff]
  intro c hc
  unfold pyBasename at hc
  rw [List.mem_reverse] at hc
  have hcp := List.mem_takeWhile_imp hc
  simpa using hcp

theorem tryExt_take (f e s : List Char) (h : tryExt f e = some s) :
    s = f.take (f.length - e.length) := by
  unfold tryExt at h
  split at h
  · injection h with h
    exact h.symm
  · exact absurd h (by simp)

theorem stripSpecial_take (fname s : List Char)
    (h : stripSpecial fname = some s) : ∃ k, s = fname.take k := by
  unfold stripSpecial at h
  cases h1 : tryExt fname (".nii.gz").data with
  | some s1 =>
    rw [h1] at h
    injection h with h
    exact ⟨_, h ▸ tryExt_take _ _ _ h1⟩
  | none =>
    rw [h1] at h
    cases h2 : tryExt fname (".tar.gz").data with
    | some s2 =>
      rw [h2] at h
      injection h with h
      exact ⟨_, h ▸ tryExt_take _ _ _ h2⟩
    | none =>
      rw [h2] at h
      exact ⟨_, tryExt_take _ _ _ h⟩

theorem noSlash_splitFilenameName (p : List Char) :
    noSlash (splitFilenameName p) = true := by
  unfold splitFilenameName
  cases hs : stripSpecial (pyBasename p) with
  | some stem =>
    obtain ⟨k, hk⟩ := stripSpecial_take _ _ hs
    rw [hk]
    exact noSlash_take _ _ (noSlash_pyBasename p)
  | none =>
    unfold splitextStem
    cases hd : lastDotIdx (pyBasename p) with
    | none => simpa using noSlash_pyBasename p
    | some i =>
      by_cases hall : (((pyBasename p).take i).all fun c => c == '.') = true
      · simpa [hall] using noSlash_pyBasename p
      · simpa [hall] using noSlash_take (pyBasename p) i (noSlash_pyBasename p)

theorem noSlash_append (a b : List Char) :
    noSlash (a ++ b) = (noSlash a && noSlash b) := by
  unfold noSlash
  exact List.all_append

/-- C10: neither the name of the single file the serializer writes nor the
returned base name contains a path separator, so the output file is a bare
relative name resolved in the current working directory of the process. -/
theorem cifti_C10 : ∀ p : List Char,
    noSlash (serializeOut p).2 = true ∧
      ((serializeOut p).1).all noSlash = true := by
  intro p
  have h1 := noSlash_splitFilenameName p
  have h2 : noSlash ((".dtseries.nii").data) = true := by decide
  constructor
  · exact h1
  · show ([splitFilenameName p ++ (".dtseries.nii").data]).all noSlash = true
    rw [List.all_cons, List.all_nil, Bool.and_true, noSlash_append, h1, h2]
    rfl

end Cifti
